import Mathlib

/-!
Verification of `script/generateWithdrawProof.py`.

The script builds two shell command strings from an artefact directory
path, runs them sequentially with `subprocess.call` (blocking, exit codes
recorded but unused), then opens `<path>/proof.json` in text mode,
iterates over its lines (Python line iteration keeps the trailing
newline and text mode applies universal-newline translation), keeps the
lines whose length exceeds 25, cleans each kept line with the replace
chain `.replace(" ","").replace(",","").replace("\r\n","").replace("\t","")
.replace("\"","")`, appends a comma after each cleaned line, strips any
remaining spaces from the accumulated string and prints it.

Strings are modelled as `List Char` (a faithful model of Python `str`
for this script: `len` counts characters, `replace` scans characters).
-/

/-- Python `s.replace(c, "")` for a one-character pattern `c`: every
occurrence of `c` is removed, scanning left to right. -/
def pyReplaceChar (c : Char) : List Char → List Char
  | [] => []
  | a :: rest => if a = c then pyReplaceChar c rest else a :: pyReplaceChar c rest

/-- Python `s.replace("\r\n", "")`: every non-overlapping occurrence of
the two-character sequence CR LF is removed, scanning left to right. -/
def pyReplaceCRLF : List Char → List Char
  | [] => []
  | [a] => [a]
  | a :: b :: rest =>
    if a = '\r' ∧ b = '\n' then pyReplaceCRLF rest
    else a :: pyReplaceCRLF (b :: rest)

/-- Universal-newline translation performed by Python's text-mode
`open`: each CR LF pair and each lone CR becomes a single LF. -/
def univNL : List Char → List Char
  | [] => []
  | '\r' :: '\n' :: rest => '\n' :: univNL rest
  | '\r' :: rest => '\n' :: univNL rest
  | c :: rest => c :: univNL rest

/-- Split an (already newline-translated) character stream into Python
file-iteration items: each item keeps its terminating LF; a final
segment without LF is an item iff it is nonempty. `cur` holds the
characters of the current line in reverse. -/
def splitLinesAux (cur : List Char) : List Char → List (List Char)
  | [] => if cur = [] then [] else [cur.reverse]
  | c :: cs =>
    if c = '\n' then (cur.reverse ++ ['\n']) :: splitLinesAux [] cs
    else splitLinesAux (c :: cur) cs

/-- The sequence of items produced by `for item in file` over a file
whose raw content is `raw`, under text-mode reading. -/
def pyLines (raw : List Char) : List (List Char) :=
  splitLinesAux [] (univNL raw)

/-- The replace chain of line 17 of the script:
`item.replace(" ","").replace(",","").replace("\r\n","").replace("\t","").replace("\"","")`. -/
def cleanItem (item : List Char) : List Char :=
  pyReplaceChar '\"'
    (pyReplaceChar '\t'
      (pyReplaceCRLF
        (pyReplaceChar ','
          (pyReplaceChar ' ' item))))

/-- One iteration of the accumulation loop (lines 15-17):
`if len(item) > 25: respStr += clean(item) + ","`. -/
def flattenStep (acc : List Char) (item : List Char) : List Char :=
  if 25 < item.length then acc ++ cleanItem item ++ [','] else acc

/-- The value of `respStr` after the loop, starting from `""` (line 12). -/
def respStrOf (lines : List (List Char)) : List Char :=
  lines.foldl flattenStep []

/-- The string printed at line 19: `respStr.replace(chr(32), "")`,
computed from the raw content of `proof.json`. -/
def flattenContent (content : String) : String :=
  String.mk (pyReplaceChar ' ' (respStrOf (pyLines content.data)))

/-- Line 4 of the script: the witness-generation command, built by plain
string concatenation of the artefact path with fixed file names. -/
def generateWitnessCmd (artefactPath : String) : String :=
  "node " ++ artefactPath ++ "/generate_witness.js " ++ artefactPath ++
    "/withdraw.wasm " ++ artefactPath ++ "/input.json " ++ artefactPath ++ "/witness.wtns"

/-- Line 5 of the script: the proving command, built by plain string
concatenation (note the doubled spaces of the source). -/
def generateProofCmd (artefactPath : String) : String :=
  "snarkjs groth16 prove  " ++ artefactPath ++ "/final.zkey  " ++ artefactPath ++
    "/witness.wtns  " ++ artefactPath ++ "/proof.json  " ++ artefactPath ++ "/public.json"

/-- The external world the script interacts with: `exitCode` gives the
exit status `subprocess.call` returns for a command, `fs` gives the
content of a file by path at the moment it is opened (`none` = the file
does not exist, so `open` raises `FileNotFoundError`). -/
structure Env where
  exitCode : String → Int
  fs : String → Option String

/-- Observable events of one run of `generateProof`, in order. -/
inductive Event where
  /-- `subprocess.call(cmd, shell=True)` returned the recorded status. -/
  | call : String → Int → Event
  /-- `open(path)` raised `FileNotFoundError`; the process dies here. -/
  | openFailed : String → Event
  /-- `open(path)` succeeded. -/
  | opened : String → Event
  /-- `print(s)` wrote `s` and a terminating newline to stdout. -/
  | printed : String → Event
deriving DecidableEq

/-- The `generateProof` function of the script (lines 3-19), as a trace
of events plus the printed string (`none` when the run terminates with
the unhandled `FileNotFoundError` and prints nothing). `subprocess.call`
is blocking, so the two calls are sequential: the first call's exit code
is recorded before the second command runs. -/
def generateProof (env : Env) (artefactPath : String) : List Event × Option String :=
  let witnessGenerateResp := env.exitCode (generateWitnessCmd artefactPath)
  let proofGenerateResp := env.exitCode (generateProofCmd artefactPath)
  let ev1 := Event.call (generateWitnessCmd artefactPath) witnessGenerateResp
  let ev2 := Event.call (generateProofCmd artefactPath) proofGenerateResp
  match env.fs (artefactPath ++ "/proof.json") with
  | none => ([ev1, ev2, Event.openFailed (artefactPath ++ "/proof.json")], none)
  | some content =>
    let out := flattenContent content
    ([ev1, ev2, Event.opened (artefactPath ++ "/proof.json"), Event.printed out], some out)

/-- Everything the run writes to standard output: the payload of the
single `print`, plus the newline `print` appends; nothing when the run
dies before printing. -/
def stdoutOf (env : Env) (artefactPath : String) : String :=
  match (generateProof env artefactPath).2 with
  | some out => out ++ "\n"
  | none => ""

/-- `b` begins with `a` (character-by-character comparison). -/
def leads : List Char → List Char → Bool
  | [], _ => true
  | _ :: _, [] => false
  | a :: as, b :: bs => a == b && leads as bs

/-- `needle` occurs contiguously somewhere inside the second list. -/
def hasSub (needle : List Char) : List Char → Bool
  | [] => leads needle []
  | c :: cs => leads needle (c :: cs) || hasSub needle cs

/-- The concatenation, in file order, of the cleaned qualifying lines,
each followed by a comma. -/
def tokensOf (lines : List (List Char)) : List Char :=
  ((lines.filter fun l => decide (25 < l.length)).map fun l => cleanItem l ++ [',']).flatten

/-- "Strip all occurrences of character `c`", as the spec words it. -/
def specStripChar (c : Char) (l : List Char) : List Char :=
  l.filter (fun a => a != c)

/-- The cleaning step as the spec words it: strip all space characters,
comma characters, CR-LF sequences, tab characters and double-quote
characters from the line, in that order. -/
def specClean (l : List Char) : List Char :=
  specStripChar '\"'
    (specStripChar '\t'
      (pyReplaceCRLF
        (specStripChar ','
          (specStripChar ' ' l))))

/-- The flattener as the spec words it: for each line of the proof
document whose character length exceeds 25, append the stripped line
followed by a literal comma to an accumulating string; afterwards remove
the remaining space characters. Stated from the spec's wording, for
comparison with `flattenContent`, which is translated from the code. -/
def specFlatten (content : String) : String :=
  String.mk (specStripChar ' '
    ((pyLines content.data).foldl
      (fun acc item => if 25 < item.length then acc ++ specClean item ++ [','] else acc) []))

lemma pyReplaceChar_eq_filter (c : Char) (l : List Char) :
    pyReplaceChar c l = l.filter (fun a => a != c) := by
  induction l with
  | nil => rfl
  | cons a rest ih =>
    by_cases h : a = c
    · simp [pyReplaceChar, h, ih]
    · simp [pyReplaceChar, h, ih]

lemma cleanItem_eq_specClean (l : List Char) : cleanItem l = specClean l := by
  simp [cleanItem, specClean, specStripChar, pyReplaceChar_eq_filter]

lemma foldl_flattenStep (lines : List (List Char)) (acc : List Char) :
    lines.foldl flattenStep acc = acc ++ tokensOf lines := by
  induction lines generalizing acc with
  | nil => simp [tokensOf]
  | cons l ls ih =>
    by_cases h : 25 < l.length
    · simp [List.foldl_cons, ih, flattenStep, tokensOf, h]
    · simp [List.foldl_cons, ih, flattenStep, tokensOf, h]

lemma respStrOf_eq_tokensOf (lines : List (List Char)) :
    respStrOf lines = tokensOf lines := by
  simpa using foldl_flattenStep lines []

lemma leads_self_append (x b : List Char) : leads x (x ++ b) = true := by
  induction x with
  | nil => rfl
  | cons a as ih => simp [leads, ih]

lemma hasSub_self_append (x b : List Char) : hasSub x (x ++ b) = true := by
  cases x with
  | nil =>
    cases b with
    | nil => rfl
    | cons c cs => simp [hasSub, leads]
  | cons a as =>
    simp only [hasSub, Bool.or_eq_true]
    exact Or.inl (by simpa using leads_self_append (a :: as) b)

lemma hasSub_of_middle (a x b : List Char) : hasSub x (a ++ x ++ b) = true := by
  induction a with
  | nil => simpa using hasSub_self_append x b
  | cons c cs ih =>
    simp only [List.cons_append, hasSub, Bool.or_eq_true]
    exact Or.inr (by simpa using ih)

lemma flattenContent_eq_specFlatten (content : String) :
    flattenContent content = specFlatten content := by
  have hstep : flattenStep =
      fun acc item => if 25 < item.length then acc ++ specClean item ++ [','] else acc := by
    funext acc item
    simp [flattenStep, cleanItem_eq_specClean]
  simp [flattenContent, specFlatten, respStrOf, hstep, pyReplaceChar_eq_filter, specStripChar]

/-- The artefact-directory-relative script path the witness-generation
command refers to. -/
def requiredScript (artefactPath : String) : String :=
  artefactPath ++ "/generate_witness.js"

/-- Modelled from the spec: the files of the §6 filesystem-contract
table, as path suffixes relative to the artefact directory. -/
def contractFileSuffixes : List String :=
  ["/withdraw.wasm", "/input.json", "/witness.wtns", "/final.zkey", "/proof.json", "/public.json"]

/-- A run against a directory holding a proof document with one
qualifying (length > 25) line; external calls succeed. -/
def envA : Env :=
  { exitCode := fun _ => 0
    fs := fun _ => some "    \"1234567890123456789012345\",\n" }

/-- Same filesystem as `envA` but both external processes exit 1. -/
def envB : Env :=
  { exitCode := fun _ => 1
    fs := envA.fs }

/-- A run against a directory with no `proof.json`. -/
def envMissing : Env :=
  { exitCode := fun _ => 0
    fs := fun _ => none }

/-- A run whose proof document has no line longer than 25 characters. -/
def envShort : Env :=
  { exitCode := fun _ => 0
    fs := fun _ => some "{}\n" }

/-- C1: for every artifact directory path, the flattener opens the proof
document file and, for each line whose character length exceeds 25,
strips all space, comma, CR-LF, tab and double-quote characters from
that line and appends the cleaned line followed by a literal comma to an
accumulating string; after all lines, remaining spaces are removed and
the string is printed. The printed string equals `specFlatten`, the
direct transcription of this contract. -/
theorem claim_C1_flattener_contract (env : Env) (p content : String)
    (h : env.fs (p ++ "/proof.json") = some content) :
    (generateProof env p).2 = some (specFlatten content) ∧
    Event.printed (specFlatten content) ∈ (generateProof env p).1 := by
  simp [generateProof, h, flattenContent_eq_specFlatten]

/-- Witness for C1 at a concrete environment and path. -/
theorem claim_C1_flattener_contract_witness :
    envA.fs ("/a" ++ "/proof.json") = some "    \"1234567890123456789012345\",\n" ∧
    ((generateProof envA "/a").2 = some (specFlatten "    \"1234567890123456789012345\",\n") ∧
      Event.printed (specFlatten "    \"1234567890123456789012345\",\n") ∈
        (generateProof envA "/a").1) :=
  ⟨rfl, claim_C1_flattener_contract envA "/a" "    \"1234567890123456789012345\",\n" rfl⟩

/-- C3: the witness-generation command is constructed and executed
strictly before the proving command (first two events of every trace, in
that order; `subprocess.call` blocks, so the first exit status is
recorded before the second command runs), and both command strings are
formed by direct concatenation of the artefact path with fixed file
names. -/
theorem claim_C3_sequencing (env : Env) (p : String) :
    ∃ t, (generateProof env p).1 =
        Event.call (generateWitnessCmd p) (env.exitCode (generateWitnessCmd p)) ::
        Event.call (generateProofCmd p) (env.exitCode (generateProofCmd p)) :: t ∧
      generateWitnessCmd p = "node " ++ p ++ "/generate_witness.js " ++ p ++
        "/withdraw.wasm " ++ p ++ "/input.json " ++ p ++ "/witness.wtns" ∧
      generateProofCmd p = "snarkjs groth16 prove  " ++ p ++ "/final.zkey  " ++ p ++
        "/witness.wtns  " ++ p ++ "/proof.json  " ++ p ++ "/public.json" := by
  cases h : env.fs (p ++ "/proof.json") with
  | none =>
    exact ⟨[Event.openFailed (p ++ "/proof.json")], by simp [generateProof, h], rfl, rfl⟩
  | some content =>
    exact ⟨[Event.opened (p ++ "/proof.json"), Event.printed (flattenContent content)],
      by simp [generateProof, h], rfl, rfl⟩

/-- C4: the exit codes of the two external invocations are recorded (in
the first two trace events) but never inspected: two runs over the same
filesystem differ at most in the recorded codes, the pipeline proceeds
unconditionally past the calls (the trace continues), and whether the
run faults or what it prints is independent of the exit codes. -/
theorem claim_C4_exit_codes_ignored (env env' : Env) (p : String)
    (h : env.fs = env'.fs) :
    (generateProof env p).2 = (generateProof env' p).2 ∧
    (generateProof env p).1.drop 2 = (generateProof env' p).1.drop 2 ∧
    2 < (generateProof env p).1.length := by
  have h' : env'.fs (p ++ "/proof.json") = env.fs (p ++ "/proof.json") := by rw [h]
  cases hfs : env.fs (p ++ "/proof.json") with
  | none => simp [generateProof, hfs, h'.trans hfs]
  | some content => simp [generateProof, hfs, h'.trans hfs]

/-- Witness for C4: same filesystem, exit codes 0 versus 1. -/
theorem claim_C4_exit_codes_ignored_witness :
    envA.fs = envB.fs ∧
    ((generateProof envA "/a").2 = (generateProof envB "/a").2 ∧
      (generateProof envA "/a").1.drop 2 = (generateProof envB "/a").1.drop 2 ∧
      2 < (generateProof envA "/a").1.length) :=
  ⟨rfl, claim_C4_exit_codes_ignored envA envB "/a" rfl⟩

/-- C5: when the artefact directory holds no `proof.json`, the run
terminates with the unhandled file-access fault (result `none`), prints
nothing, and writes nothing to standard output. -/
theorem claim_C5_missing_proof_json (env : Env) (p : String)
    (h : env.fs (p ++ "/proof.json") = none) :
    (generateProof env p).2 = none ∧
    (∀ s, Event.printed s ∉ (generateProof env p).1) ∧
    stdoutOf env p = "" := by
  simp [generateProof, stdoutOf, h]

/-- Witness for C5 at a concrete environment with no files. -/
theorem claim_C5_missing_proof_json_witness :
    envMissing.fs ("/a" ++ "/proof.json") = none ∧
    ((generateProof envMissing "/a").2 = none ∧
      (∀ s, Event.printed s ∉ (generateProof envMissing "/a").1) ∧
      stdoutOf envMissing "/a" = "") :=
  ⟨rfl, claim_C5_missing_proof_json envMissing "/a" rfl⟩

/-- C9: when no line of the proof document exceeds 25 characters, the
flattened output is the empty string (also after the final space strip)
and the run completes without fault, printing the empty string. -/
theorem claim_C9_no_qualifying_lines (env : Env) (p content : String)
    (hfs : env.fs (p ++ "/proof.json") = some content)
    (hshort : ∀ l ∈ pyLines content.data, ¬ 25 < l.length) :
    flattenContent content = "" ∧ (generateProof env p).2 = some "" := by
  have hfilter : (pyLines content.data).filter (fun l => decide (25 < l.length)) = [] := by
    simp only [List.filter_eq_nil_iff, decide_eq_true_eq]
    exact hshort
  have hflat : flattenContent content = "" := by
    simp [flattenContent, respStrOf_eq_tokensOf, tokensOf, hfilter, pyReplaceChar]
  exact ⟨hflat, by simp [generateProof, hfs, hflat]⟩

/-- Witness for C9: a proof document consisting of the single short line
`{}`. -/
theorem claim_C9_no_qualifying_lines_witness :
    envShort.fs ("/a" ++ "/proof.json") = some "{}\n" ∧
    (∀ l ∈ pyLines ("{}\n" : String).data, ¬ 25 < l.length) ∧
    (flattenContent "{}\n" = "" ∧ (generateProof envShort "/a").2 = some "") :=
  ⟨rfl, by decide, claim_C9_no_qualifying_lines envShort "/a" "{}\n" rfl (by decide)⟩

/-- C10: the first executed command is exactly
`node <p>/generate_witness.js <p>/withdraw.wasm <p>/input.json
<p>/witness.wtns`: it refers to the script `<p>/generate_witness.js`
inside the artefact directory, a path that is not among the files of the
spec's filesystem-contract table. -/
theorem claim_C10_generate_witness_script (env : Env) (p : String) :
    (generateProof env p).1.head? =
      some (Event.call (generateWitnessCmd p) (env.exitCode (generateWitnessCmd p))) ∧
    generateWitnessCmd p = "node " ++ p ++ "/generate_witness.js " ++ p ++
      "/withdraw.wasm " ++ p ++ "/input.json " ++ p ++ "/witness.wtns" ∧
    hasSub (requiredScript p).data (generateWitnessCmd p).data = true ∧
    "/generate_witness.js" ∉ contractFileSuffixes := by
  refine ⟨?_, rfl, ?_, by decide⟩
  · cases h : env.fs (p ++ "/proof.json") <;> simp [generateProof, h]
  · have hdata : (generateWitnessCmd p).data =
        "node ".data ++ (p.data ++ "/generate_witness.js".data) ++
          (" ".data ++ p.data ++ "/withdraw.wasm ".data ++ p.data ++ "/input.json ".data ++
            p.data ++ "/witness.wtns".data) := by
      simp only [generateWitnessCmd, String.data_append, List.append_assoc,
        List.cons_append, List.nil_append]
    have hreq : (requiredScript p).data = p.data ++ "/generate_witness.js".data := by
      simp [requiredScript, String.data_append]
    rw [hdata, hreq]
    exact hasSub_of_middle _ _ _

/-- A one-qualifying-line proof document used to exhibit that the lone
line feed survives the replace chain. -/
def docC2 : String := "    \"9876543210987654321098765\",\n"

/-- C2 counterexample: the cleaned token of a qualifying line is not
cleaned of its newline character: for `docC2` the output is the token
followed by a line feed and then the comma, not token-comma. -/
theorem claim_C2_counterexample :
    flattenContent docC2 = "9876543210987654321098765\n," ∧
    flattenContent docC2 ≠ "9876543210987654321098765," := by
  exact ⟨by decide, by decide⟩

/-- C2 (amended): the flattened proof string is exactly the cleaned
qualifying lines in file order, each followed by a comma (so with a
trailing comma), then space-stripped once more; cleaning removes space,
comma, CR-LF, tab and double-quote characters but retains a lone line
feed, so each token keeps its terminating newline. -/
theorem claim_C2_flattened_tokens (content : String) :
    flattenContent content =
      String.mk (pyReplaceChar ' '
        ((((pyLines content.data).filter fun l => decide (25 < l.length)).map
          fun l => cleanItem l ++ [',']).flatten)) := by
  simp [flattenContent, respStrOf_eq_tokensOf, tokensOf]

/-- A proof document whose single text line has exactly 25 characters
before its terminating newline. -/
def docC6 : String := "1234567890123456789012345\n"

/-- C6 counterexample: a text line of exactly 25 characters is NOT
excluded: with its terminating newline the iterated item has 26
characters, passes the `> 25` test, and its token reaches the output. -/
theorem claim_C6_counterexample :
    pyLines docC6.data = ["1234567890123456789012345\n".data] ∧
    flattenContent docC6 = "1234567890123456789012345\n," ∧
    flattenContent docC6 ≠ "" := by
  exact ⟨by decide, by decide, by decide⟩

/-- C6 (amended): the threshold is applied to the raw iterated line,
whose length includes its trailing newline when present: an item of
exactly 25 characters contributes nothing to the flattened output, and
an item of 26 characters contributes its cleaned token followed by a
comma. -/
theorem claim_C6_threshold (pre post : List (List Char)) (l25 l26 : List Char)
    (h25 : l25.length = 25) (h26 : l26.length = 26) :
    respStrOf (pre ++ l25 :: post) = respStrOf (pre ++ post) ∧
    respStrOf (pre ++ l26 :: post) =
      respStrOf pre ++ (cleanItem l26 ++ [',']) ++ respStrOf post := by
  constructor
  · simp [respStrOf_eq_tokensOf, tokensOf, List.filter_append, h25]
  · simp [respStrOf_eq_tokensOf, tokensOf, List.filter_append, h26, List.append_assoc]

/-- Witness for C6 (amended) at concrete 25- and 26-character items. -/
theorem claim_C6_threshold_witness :
    ("1234567890123456789012345".data.length = 25 ∧
      "1234567890123456789012345\n".data.length = 26) ∧
    (respStrOf ([] ++ "1234567890123456789012345".data :: []) = respStrOf ([] ++ []) ∧
      respStrOf ([] ++ "1234567890123456789012345\n".data :: []) =
        respStrOf [] ++ (cleanItem "1234567890123456789012345\n".data ++ [',']) ++
          respStrOf []) :=
  ⟨⟨by decide, by decide⟩,
    claim_C6_threshold [] [] "1234567890123456789012345".data
      "1234567890123456789012345\n".data (by decide) (by decide)⟩

/-- A run whose proof document has one qualifying line, used to count
the lines of standard output. -/
def envC7 : Env :=
  { exitCode := fun _ => 0
    fs := fun _ => some "    \"1111111111111111111111111\",\n" }

/-- Number of line-feed characters in a string. -/
def countNL (s : String) : Nat := s.data.count '\n'

/-- C7 counterexample: a run that reaches the flattening stage whose
standard output spans two lines: the printed payload itself contains a
line feed (the one retained from the qualifying line), plus the line
feed appended by `print`. -/
theorem claim_C7_counterexample :
    (generateProof envC7 "/a").2 ≠ none ∧
    stdoutOf envC7 "/a" = "1111111111111111111111111\n,\n" ∧
    countNL (stdoutOf envC7 "/a") = 2 := by
  exact ⟨by decide, by decide, by decide⟩

/-- C7 (amended): every run that reaches the flattening stage performs
exactly one print, of the flattened proof string, as its last observable
action, and writes nothing else to standard output; the payload may
itself contain line feeds, so standard output may span several text
lines. -/
theorem claim_C7_single_print (env : Env) (p content : String)
    (h : env.fs (p ++ "/proof.json") = some content) :
    stdoutOf env p = flattenContent content ++ "\n" ∧
    (generateProof env p).1 =
      [Event.call (generateWitnessCmd p) (env.exitCode (generateWitnessCmd p)),
        Event.call (generateProofCmd p) (env.exitCode (generateProofCmd p)),
        Event.opened (p ++ "/proof.json"),
        Event.printed (flattenContent content)] := by
  simp [generateProof, stdoutOf, h]

/-- Witness for C7 (amended) at a concrete environment. -/
theorem claim_C7_single_print_witness :
    envC7.fs ("/a" ++ "/proof.json") = some "    \"1111111111111111111111111\",\n" ∧
    (stdoutOf envC7 "/a" = flattenContent "    \"1111111111111111111111111\",\n" ++ "\n" ∧
      (generateProof envC7 "/a").1 =
        [Event.call (generateWitnessCmd "/a") (envC7.exitCode (generateWitnessCmd "/a")),
          Event.call (generateProofCmd "/a") (envC7.exitCode (generateProofCmd "/a")),
          Event.opened ("/a" ++ "/proof.json"),
          Event.printed (flattenContent "    \"1111111111111111111111111\",\n")]) :=
  ⟨rfl, claim_C7_single_print envC7 "/a" "    \"1111111111111111111111111\",\n" rfl⟩

/-- The four-line proof document of the spec's end-to-end scenario. -/
def docC8 : String :=
  "  \"pi_a\": [\n    \"1234567890123456789012345\",\n    \"2\"\n  ],\n"

/-- C8 counterexample: in the end-to-end scenario only the second line
qualifies, but its cleaned token is not the bare digit string (the line
feed survives cleaning), and the printed output does NOT contain
`1234567890123456789012345,` as a substring — a line feed sits between
the digits and the comma. -/
theorem claim_C8_counterexample :
    (pyLines docC8.data).filter (fun l => decide (25 < l.length)) =
      ["    \"1234567890123456789012345\",\n".data] ∧
    cleanItem "    \"1234567890123456789012345\",\n".data ≠
      "1234567890123456789012345".data ∧
    hasSub "1234567890123456789012345,".data (flattenContent docC8).data = false := by
  exact ⟨by decide, by decide, by decide⟩

/-- C8 (amended): in the end-to-end scenario only the second line
qualifies, its cleaned token is the digit string followed by a line
feed, the printed output is exactly that token followed by a comma, and
the output contains `1234567890123456789012345` immediately followed by
a line feed and the comma as a substring. -/
theorem claim_C8_end_to_end :
    (pyLines docC8.data).filter (fun l => decide (25 < l.length)) =
      ["    \"1234567890123456789012345\",\n".data] ∧
    cleanItem "    \"1234567890123456789012345\",\n".data =
      "1234567890123456789012345\n".data ∧
    flattenContent docC8 = "1234567890123456789012345\n," ∧
    hasSub "1234567890123456789012345\n,".data (flattenContent docC8).data = true := by
  exact ⟨by decide, by decide, by decide, by decide⟩
